import Mathlib

/-!
Verification development for the digital-photo-request backend
(Vercel + Supabase photo app).

The JavaScript request handlers and database helpers are shallowly
embedded as pure Lean functions over explicit state:

* the `verification_codes` table is a `List CodeRow`;
* the `accounts` table is a `List Account`, the `admins` allow-list a
  `List String`;
* the `orders` table is a `List OrderRow`;
* every Supabase `.single()` query is modelled by filtering the list and
  requiring exactly one match, matching PostgREST semantics (zero or
  several rows yield an error, which the helpers turn into `none`);
* `Date.now()` and timestamps are naturals (milliseconds);
* external e-mail sends are modelled by a boolean (or `Option String`
  error) describing whether the awaited send succeeded;
* `Math.random()`-based code generation is modelled by a natural seed.

Each handler is translated from the repository source; section comments
name the source file the definitions come from.
-/

/-! ### lib/auth.js — credential utilities -/

/-- Result shape of `validatePassword`: `{valid, message?}`. -/
structure PwResult where
  valid : Bool
  message : Option String
deriving Repr, DecidableEq

def msgPwLen : String := "Password must be at least 8 characters long."

def msgPwUpper : String := "Password must contain at least 1 uppercase letter."

def msgPwLower : String := "Password must contain at least 1 lowercase letter."

def msgPwDigit : String := "Password must contain at least 1 number."

def msgPwSpecial : String := "Password must contain at least 1 special character."

/-- JS `String.prototype.trim`, written over the character list so that
it evaluates by kernel reduction.  (JS trims a slightly larger
whitespace set than `Char.isWhitespace`; the difference never matters
for the inputs under verification.) -/
def jsTrim (s : String) : String :=
  String.mk (((s.data.dropWhile Char.isWhitespace).reverse.dropWhile
    Char.isWhitespace).reverse)

/-- JS `String.prototype.toLowerCase`, over the character list. -/
def jsToLower (s : String) : String :=
  String.mk (s.data.map Char.toLower)

/-- JS regex `[A-Z]` character test. -/
def isUpperAZ (c : Char) : Bool := 'A' ≤ c && c ≤ 'Z'

/-- JS regex `[a-z]` character test. -/
def isLowerAZ (c : Char) : Bool := 'a' ≤ c && c ≤ 'z'

/-- JS regex `[0-9]` character test. -/
def isDigit09 (c : Char) : Bool := '0' ≤ c && c ≤ '9'

/-- The fixed punctuation set of the JS regex
`[!@#$%^&*()_+\-=\[\]{};':"\\|,.<>\/?]` (braces written with escapes). -/
def pwSpecialChars : List Char :=
  ['!', '@', '#', '$', '%', '^', '&', '*', '(', ')', '_', '+', '-', '=',
   '[', ']', '\x7b', '\x7d', ';', '\'', ':', '"', '\\', '|', ',', '.',
   '<', '>', '/', '?']

def isPwSpecial (c : Char) : Bool := pwSpecialChars.contains c

/-- Model of `validatePassword` from lib/auth.js: short-circuit checks in order
length, uppercase, lowercase, digit, special character.  The JS guard
`!password || password.length < 8` collapses to the length test because
the empty string has length 0. -/
def validatePassword (password : String) : PwResult :=
  if password.length < 8 then ⟨false, some msgPwLen⟩
  else if !(password.data.any isUpperAZ) then ⟨false, some msgPwUpper⟩
  else if !(password.data.any isLowerAZ) then ⟨false, some msgPwLower⟩
  else if !(password.data.any isDigit09) then ⟨false, some msgPwDigit⟩
  else if !(password.data.any isPwSpecial) then ⟨false, some msgPwSpecial⟩
  else ⟨true, none⟩

/-! ### lib/dropbox.js — direct-download link rewriting -/

/-- Whether `pat` occurs as a contiguous sublist. -/
def containsSub (pat : List Char) : List Char → Bool
  | [] => pat.isEmpty
  | c :: rest => pat.isPrefixOf (c :: rest) || containsSub pat rest

/-- JS `String.prototype.includes`. -/
def jsIncludes (s pat : String) : Bool :=
  containsSub pat.data s.data

/-- Replace the first occurrence of `pat` (non-empty in all uses). -/
def replaceFirstAux (pat repl : List Char) : List Char → List Char
  | [] => []
  | c :: rest =>
    if pat.isPrefixOf (c :: rest) then repl ++ (c :: rest).drop pat.length
    else c :: replaceFirstAux pat repl rest

/-- JS `String.prototype.replace` with a string pattern replaces only the
first occurrence. -/
def replaceFirst (s pat repl : String) : String :=
  String.mk (replaceFirstAux pat.data repl.data s.data)

/-- Model of `getDirectDownloadLink` from lib/dropbox.js: rewrite a Dropbox shared
link to force a direct download (`dl=1`). -/
def getDirectDownloadLink (sharedLink : String) : String :=
  if sharedLink = "" then ""
  else if jsIncludes sharedLink "?dl=0" then replaceFirst sharedLink "?dl=0" "?dl=1"
  else if jsIncludes sharedLink "&dl=0" then replaceFirst sharedLink "&dl=0" "&dl=1"
  else if !(jsIncludes sharedLink "dl=1") then
    sharedLink ++ (if jsIncludes sharedLink "?" then "&dl=1" else "?dl=1")
  else sharedLink

/-! ### lib/db.js — verification_codes table -/

/-- One row of the `verification_codes` table. -/
structure CodeRow where
  id : Nat
  code : String
  dropbox_link : Option String
  used_by_email : Option String
  used_at : Option Nat
deriving Repr, DecidableEq

/-- The object `findCodeByValidation` returns to callers
(`{id, email, validationCode, dropboxLink, isUsed}`). -/
structure CodeEntry where
  id : Nat
  email : String
  validationCode : String
  dropboxLink : String
  isUsed : Bool
deriving Repr, DecidableEq

def toCodeEntry (r : CodeRow) : CodeEntry :=
  ⟨r.id, r.used_by_email.getD "", r.code, r.dropbox_link.getD "",
   r.used_by_email.isSome⟩

/-- Model of `findCodeByValidation` from lib/db.js: exact match on the trimmed
code via `.eq('code', code.trim()).single()`. -/
def findCodeByValidation (codes : List CodeRow) (code : String) :
    Option CodeEntry :=
  match codes.filter (fun r => r.code == jsTrim code) with
  | [r] => some (toCodeEntry r)
  | _ => none

/-- Model of `markCodeUsed` from lib/db.js: an unconditional
`update({used_by_email, used_at}).eq('id', codeId)` — there is no
"where currently unused" guard. -/
def markCodeUsed (codes : List CodeRow) (codeId : Nat) (email : String)
    (now : Nat) : List CodeRow :=
  codes.map fun r =>
    if r.id == codeId then
      { r with used_by_email := some email, used_at := some now }
    else r

/-! ### POST /api/request — code redemption handler -/

/-- JSON response of the redemption handler. -/
structure ApiResponse where
  status : Nat
  success : Bool
  message : String
  dropboxLink : Option String
deriving Repr, DecidableEq

def msgEnterCode : String := "Please enter your code."

def msgNotValid : String := "Code not valid. Please reach out to us on WhatsApp."

def msgAlreadyUsed : String :=
  "This code has already been used. Please reach out to us on WhatsApp."

def msgNotConfigured : String := "Download link not configured. Please contact support."

def msgRedeemSuccess : String :=
  "Success! The digital photo link has been sent to your email."

def msgServerError : String := "An error occurred. Please try again later."

/-- The redemption handler (api/request.js), after token verification:
validate the submitted code, look it up, check `isUsed` and the link,
mark the row used, and return the direct-download link.  `emailOk`
models whether the awaited `sendPhotoEmail` call succeeded; on failure
the row has already been marked used and the outer catch returns 500. -/
def handleRequest (codes : List CodeRow) (userEmail code : String)
    (now : Nat) (emailOk : Bool) : ApiResponse × List CodeRow :=
  if jsTrim code = "" then (⟨400, false, msgEnterCode, none⟩, codes)
  else
    match findCodeByValidation codes code with
    | none => (⟨400, false, msgNotValid, none⟩, codes)
    | some entry =>
      if entry.isUsed then (⟨400, false, msgAlreadyUsed, none⟩, codes)
      else if entry.dropboxLink = "" then
        (⟨400, false, msgNotConfigured, none⟩, codes)
      else
        let codes2 := markCodeUsed codes entry.id userEmail now
        if emailOk then
          (⟨200, true, msgRedeemSuccess,
            some (getDirectDownloadLink entry.dropboxLink)⟩, codes2)
        else (⟨500, false, msgServerError, none⟩, codes2)

/-! ### Interleaving model of two concurrent redemption requests

Each serverless invocation of the redemption handler performs two
datastore operations: a read (`findCodeByValidation` plus the in-memory
checks on the snapshot) and a write (`markCodeUsed`).  Under concurrent
invocations these awaited operations interleave at the datastore.
`redeemRead`/`redeemWrite` split `handleRequest` at its await points,
and `twoConcurrentRedemptions` runs the schedule
read-A, read-B, write-A, write-B. -/

/-- Outcome of the read half of a redemption: either an early failure
response or the snapshot entry to be marked used. -/
inductive RedeemStep where
  | failed (resp : ApiResponse)
  | willMark (entry : CodeEntry)
deriving Repr, DecidableEq

/-- Lines 40–60 of api/request.js: everything up to `markCodeUsed`,
acting on a snapshot of the table. -/
def redeemRead (codes : List CodeRow) (code : String) : RedeemStep :=
  if jsTrim code = "" then .failed ⟨400, false, msgEnterCode, none⟩
  else
    match findCodeByValidation codes code with
    | none => .failed ⟨400, false, msgNotValid, none⟩
    | some entry =>
      if entry.isUsed then .failed ⟨400, false, msgAlreadyUsed, none⟩
      else if entry.dropboxLink = "" then
        .failed ⟨400, false, msgNotConfigured, none⟩
      else .willMark entry

/-- Lines 62–75 of api/request.js: `markCodeUsed` plus the success
response (e-mail send assumed to succeed). -/
def redeemWrite (codes : List CodeRow) (entry : CodeEntry)
    (userEmail : String) (now : Nat) : ApiResponse × List CodeRow :=
  (⟨200, true, msgRedeemSuccess,
    some (getDirectDownloadLink entry.dropboxLink)⟩,
   markCodeUsed codes entry.id userEmail now)

/-- Two concurrent redemptions of the same code under the schedule in
which both reads observe the initial table before either write runs. -/
def twoConcurrentRedemptions (codes : List CodeRow) (uA uB code : String)
    (now : Nat) : ApiResponse × ApiResponse × List CodeRow :=
  match redeemRead codes code, redeemRead codes code with
  | .failed rA, .failed rB => (rA, rB, codes)
  | .failed rA, .willMark eB =>
      let (rB, codes1) := redeemWrite codes eB uB now
      (rA, rB, codes1)
  | .willMark eA, .failed rB =>
      let (rA, codes1) := redeemWrite codes eA uA now
      (rA, rB, codes1)
  | .willMark eA, .willMark eB =>
      let (rA, codes1) := redeemWrite codes eA uA now
      let (rB, codes2) := redeemWrite codes1 eB uB now
      (rA, rB, codes2)

/-! ### lib/db.js — accounts table, login codes, reset tokens -/

/-- One row of the `accounts` table (fields used by the handlers under
verification; display metadata is omitted as no claim touches it). -/
structure Account where
  id : Nat
  email : String
  password : Option String
  email_verified : Bool
  admin_approved : Bool
  reset_token : Option String
  token_expiry : Option Nat
  login_code : Option String
  login_code_expiry : Option Nat
deriving Repr, DecidableEq

/-- Model of `findAccountByEmail`: `.eq('email', email.toLowerCase()).single()`. -/
def findAccountByEmail (accounts : List Account) (email : String) :
    Option Account :=
  match accounts.filter (fun a => a.email == jsToLower email) with
  | [a] => some a
  | _ => none

/-- Model of `isAdmin` from lib/db.js: the `admins` allow-list is queried with
`.eq('email', email.toLowerCase()).single()`; exactly one matching row
means admin. -/
def isAdmin (admins : List String) (email : String) : Bool :=
  match admins.filter (fun e => e == jsToLower email) with
  | [_] => true
  | _ => false

/-- Model of `setResetToken`: store a reset token and its expiry on the account
row with the given id. -/
def setResetToken (accounts : List Account) (accountId : Nat)
    (token : String) (expiry : Nat) : List Account :=
  accounts.map fun a =>
    if a.id == accountId then
      { a with reset_token := some token, token_expiry := some expiry }
    else a

/-- Model of `generateLoginCode`:
`Math.floor(100000 + Math.random() * 900000).toString()`, with the
random draw modelled by a natural seed `r` (`Math.random()*900000`
floors to `r % 900000`). -/
def generateLoginCode (r : Nat) : String :=
  Nat.repr (100000 + r % 900000)

/-- Ten minutes in milliseconds: `expiry.setMinutes(getMinutes() + 10)`. -/
def loginCodeTtlMs : Nat := 600000

/-- Model of `setLoginCode` from lib/db.js (writing part): store the generated
code with a 10-minute expiry on the rows matching the e-mail. -/
def setLoginCode (accounts : List Account) (email code : String)
    (now : Nat) : List Account :=
  accounts.map fun a =>
    if a.email == jsToLower email then
      { a with login_code := some code,
               login_code_expiry := some (now + loginCodeTtlMs) }
    else a

/-- The update `{login_code: null, login_code_expiry: null}` issued by
`verifyLoginCode` on expiry and on success. -/
def clearLoginCode (accounts : List Account) (email : String) :
    List Account :=
  accounts.map fun a =>
    if a.email == jsToLower email then
      { a with login_code := none, login_code_expiry := none }
    else a

/-- Result object of `verifyLoginCode` (`{success, message}`; the source
returns no message on success, modelled as `""`). -/
structure VcResult where
  success : Bool
  message : String
deriving Repr, DecidableEq

def msgNoLoginCode : String :=
  "No verification code found. Please try logging in again."

def msgLoginCodeExpired : String :=
  "Verification code has expired. Please try logging in again."

def msgLoginCodeInvalid : String := "Invalid verification code."

/-- Model of `verifyLoginCode` from lib/db.js: look the account up, fail when no
code is stored, clear-and-fail when expired (`new Date() > expiry`,
with `new Date(null)` being epoch 0), fail without clearing on
mismatch, and clear-and-succeed on a case-sensitive match. -/
def verifyLoginCode (accounts : List Account) (email code : String)
    (now : Nat) : List Account × VcResult :=
  match accounts.filter (fun a => a.email == jsToLower email) with
  | [a] =>
    match a.login_code with
    | none => (accounts, ⟨false, msgNoLoginCode⟩)
    | some stored =>
      if a.login_code_expiry.getD 0 < now then
        (clearLoginCode accounts email, ⟨false, msgLoginCodeExpired⟩)
      else if stored ≠ code then
        (accounts, ⟨false, msgLoginCodeInvalid⟩)
      else (clearLoginCode accounts email, ⟨true, ""⟩)
  | _ => (accounts, ⟨false, "Account not found."⟩)

/-! ### POST /api/auth — login, verify-login-code, forgot -/

/-- The payload `jwt.sign({email, isAdmin}, ...)` receives; a session
token is modelled by its claims. -/
structure SessionToken where
  email : String
  isAdmin : Bool
deriving Repr, DecidableEq

def generateToken (email : String) (admin : Bool) : SessionToken :=
  ⟨email, admin⟩

/-- JSON response of the auth handlers, with the optional flag fields the
client branches on. -/
structure AuthResponse where
  status : Nat
  success : Bool
  message : String
  needsVerification : Bool := false
  pendingApproval : Bool := false
  requiresCode : Bool := false
  token : Option SessionToken := none
  isAdmin : Bool := false
deriving Repr, DecidableEq

def msgEmailPwRequired : String := "Email and password are required."

def msgInvalidCreds : String := "Invalid email or password."

def msgNeedsVerification : String :=
  "Please verify your email first. Check your inbox for the verification link."

def msgPendingApproval : String :=
  "Your account is pending admin approval. You will receive an email once approved."

def msgCodeSent : String := "Verification code sent to your email."

def msgSendCodeFailed : String :=
  "Failed to send verification code. Please try again."

def msgLoginSuccess : String := "Login successful!"

/-- Model of `handleLogin` from api/auth.js: credential check, admin-bypassable
verification/approval gating, then the login-code second factor.
`pwMatches` models `bcrypt.compare` against the stored hash (a missing
hash — Google accounts — never matches); `genCode` is the code
`setLoginCode` generates; `emailOk` models the awaited code e-mail. -/
def handleLogin (accounts : List Account) (admins : List String)
    (pwMatches : String → Bool) (email password : String)
    (genCode : String) (now : Nat) (emailOk : Bool) :
    AuthResponse × List Account :=
  if email = "" ∨ password = "" then
    ({ status := 400, success := false, message := msgEmailPwRequired }, accounts)
  else
    let fullEmail := jsTrim (jsToLower email)
    match findAccountByEmail accounts fullEmail with
    | none => ({ status := 401, success := false, message := msgInvalidCreds }, accounts)
    | some account =>
      let pwOk := match account.password with
        | none => false
        | some h => pwMatches h
      if !pwOk then ({ status := 401, success := false, message := msgInvalidCreds }, accounts)
      else
        let adm := isAdmin admins fullEmail
        if !adm && !account.email_verified then
          ({ status := 403, success := false, message := msgNeedsVerification,
             needsVerification := true }, accounts)
        else if !adm && !account.admin_approved then
          ({ status := 403, success := false, message := msgPendingApproval,
             pendingApproval := true }, accounts)
        else
          let accounts2 := setLoginCode accounts fullEmail genCode now
          if emailOk then
            ({ status := 200, success := true, message := msgCodeSent,
               requiresCode := true, isAdmin := adm }, accounts2)
          else ({ status := 500, success := false, message := msgSendCodeFailed }, accounts2)

def msgEmailCodeRequired : String := "Email and verification code are required."

/-- Model of `handleVerifyLoginCode` from api/auth.js: check the second-factor
code via `verifyLoginCode`, then mint the session token. -/
def handleVerifyLoginCode (accounts : List Account) (admins : List String)
    (email code : String) (now : Nat) : AuthResponse × List Account :=
  if email = "" ∨ code = "" then
    ({ status := 400, success := false, message := msgEmailCodeRequired }, accounts)
  else
    let fullEmail := jsTrim (jsToLower email)
    let res := verifyLoginCode accounts fullEmail code now
    if res.2.success then
      let adm := isAdmin admins fullEmail
      ({ status := 200, success := true, message := msgLoginSuccess,
         token := some (generateToken fullEmail adm), isAdmin := adm },
       res.1)
    else ({ status := 401, success := false, message := res.2.message }, res.1)

def msgEmailRequired : String := "Email is required."

def msgForgot : String := "If an account exists, a reset link has been sent."

def msgAuthError : String := "An error occurred."

/-- Model of `handleForgot` from api/auth.js: the account-not-found branch is
suppressed and answered with the same success message as the happy
path.  `emailOk` models the awaited reset e-mail; its failure is caught
by the surrounding dispatcher as a 500 (after the token was stored). -/
def handleForgot (accounts : List Account) (email resetToken : String)
    (now : Nat) (emailOk : Bool) : AuthResponse × List Account :=
  if email = "" then ({ status := 400, success := false, message := msgEmailRequired }, accounts)
  else
    let fullEmail := jsTrim (jsToLower email)
    match findAccountByEmail accounts fullEmail with
    | none => ({ status := 200, success := true, message := msgForgot }, accounts)
    | some account =>
      let accounts2 := setResetToken accounts account.id resetToken (now + 3600000)
      if emailOk then ({ status := 200, success := true, message := msgForgot }, accounts2)
      else ({ status := 500, success := false, message := msgAuthError }, accounts2)

/-! ### /api/order and /api/admin — order lifecycle -/

/-- One row of the `orders` table. -/
structure OrderRow where
  id : String
  user_email : String
  status : String
  created_at : Nat
  dropbox_folder : String
  dropbox_link : String
  country : String
  address : Option String
  verification_code : Option String
  pickup_instructions : Option String
  payment_requested_at : Option Nat
  approved_at : Option Nat
  completed_at : Option Nat
deriving Repr, DecidableEq

/-- Plain JSON response of the order/admin handlers. -/
structure OrderResponse where
  status : Nat
  success : Bool
  message : String
deriving Repr, DecidableEq

/-- The HTML result page rendered by the GET approve handler
(`sendHtml(res, title, msg, success)`), abstracted to its title and
success flag. -/
structure HtmlPage where
  title : String
  success : Bool
deriving Repr, DecidableEq

/-- Semantics of `.order('created_at').limit(1).single()` descending: the
first row of the descending sort, i.e. a row with maximal
`created_at`. -/
def latestByCreated (l : List OrderRow) : Option OrderRow :=
  l.foldl (fun acc o =>
    match acc with
    | none => some o
    | some b => if b.created_at < o.created_at then some o else some b) none

def msgOrderNotFound : String := "Order not found."

def msgPaymentRequested : String := "Payment request sent!"

def msgOrderError : String := "An error occurred."

/-- Model of `handleRequestPayment` from api/order.js: select the order — by
`id` when `orderId` is supplied (filtered only by `user_email`, with no
status condition), otherwise the most recent `pending` order — e-mail
the admin the approval capability link, then set `status := 'paid'`
unconditionally on that row.  `emailOk` models the awaited admin
e-mail, whose failure is caught by the dispatcher before the update. -/
def handleRequestPayment (orders : List OrderRow) (userEmail : String)
    (orderId : Option String) (now : Nat) (emailOk : Bool) :
    OrderResponse × List OrderRow :=
  let mine := orders.filter (fun o => o.user_email == userEmail)
  let found : Option OrderRow :=
    match orderId with
    | some oid =>
      match mine.filter (fun o => o.id == oid) with
      | [o] => some o
      | _ => none
    | none => latestByCreated (mine.filter (fun o => o.status == "pending"))
  match found with
  | none => (⟨404, false, msgOrderNotFound⟩, orders)
  | some order =>
    if emailOk then
      (⟨200, true, msgPaymentRequested⟩,
       orders.map fun o =>
         if o.id == order.id then
           { o with status := "paid", payment_requested_at := some now }
         else o)
    else (⟨500, false, msgOrderError⟩, orders)

def msgOrderIdRequired : String := "Order ID is required."

def msgReadySent : String := "Ready for pickup email sent!"

/-- Model of `handleSendReadyEmail` from api/admin.js: fetch the order by id,
send the ready-for-pickup e-mail, and set `status := 'completed'` —
with no check of the order's current status.  `emailErr` models the
result of `sendReadyForPickupEmail` (`none` = success). -/
def handleSendReadyEmail (orders : List OrderRow) (orderId : String)
    (now : Nat) (emailErr : Option String) :
    OrderResponse × List OrderRow :=
  if orderId = "" then (⟨400, false, msgOrderIdRequired⟩, orders)
  else
    match orders.filter (fun o => o.id == orderId) with
    | [_] =>
      match emailErr with
      | some err => (⟨500, false, "Failed to send email: " ++ err⟩, orders)
      | none =>
        (⟨200, true, msgReadySent⟩,
         orders.map fun o =>
           if o.id == orderId then
             { o with status := "completed", completed_at := some now }
           else o)
    | _ => (⟨404, false, msgOrderNotFound⟩, orders)

/-- The decoded claims of an approval capability token
(`{orderId, action: 'approve'}`). -/
structure ApprovalToken where
  orderId : String
  action : String
deriving Repr, DecidableEq

/-- The GET approve handler from api/order.js: validate the query and
capability token, refuse when the order is missing, answer
"Already Approved" without touching anything when the status is
already `approved` or `completed`, and otherwise mint a fresh
verification code (`newCode`/`newCodeId`, generated unique by
retry), create its Dropbox folder and shared link (`sharedLink`), save
the code row, and move the order to `approved`. -/
def handleApproveGet (codes : List CodeRow) (orders : List OrderRow)
    (qApprove : Bool) (qOrderId : String) (decoded : Option ApprovalToken)
    (newCode : String) (newCodeId : Nat) (sharedLink : String)
    (now : Nat) : HtmlPage × List CodeRow × List OrderRow :=
  if !qApprove ∨ qOrderId = "" then (⟨"Error", false⟩, codes, orders)
  else
    match decoded with
    | none => (⟨"Error", false⟩, codes, orders)
    | some d =>
      if d.orderId ≠ qOrderId ∨ d.action ≠ "approve" then
        (⟨"Error", false⟩, codes, orders)
      else
        match orders.filter (fun o => o.id == qOrderId) with
        | [order] =>
          if order.status = "approved" ∨ order.status = "completed" then
            (⟨"Already Approved", true⟩, codes, orders)
          else
            (⟨"Approved!", true⟩,
             codes ++ [⟨newCodeId, newCode, some sharedLink, none, none⟩],
             orders.map fun o =>
               if o.id == order.id then
                 { o with status := "approved",
                          verification_code := some newCode,
                          approved_at := some now }
               else o)
        | _ => (⟨"Error", false⟩, codes, orders)

/-- A concrete order that has already been approved (used to exhibit the
backward `approved → paid` transition of `handleRequestPayment`). -/
def exOrderApproved : OrderRow :=
  { id := "o1", user_email := "user@example.com", status := "approved",
    created_at := 10, dropbox_folder := "/UserPhotos/user_example_com",
    dropbox_link := "https://www.dropbox.com/s/u?dl=0",
    country := "US", address := none, verification_code := none,
    pickup_instructions := none, payment_requested_at := some 11,
    approved_at := some 12, completed_at := none }

/-- A concrete order still in `pending` (used to exhibit that
`handleSendReadyEmail` completes orders that were never approved). -/
def exOrderPending : OrderRow :=
  { id := "o2", user_email := "user@example.com", status := "pending",
    created_at := 20, dropbox_folder := "/UserPhotos/user_example_com",
    dropbox_link := "https://www.dropbox.com/s/u?dl=0",
    country := "US", address := none, verification_code := none,
    pickup_instructions := none, payment_requested_at := none,
    approved_at := none, completed_at := none }

/-- A concrete unused verification code with a configured link (used by
the concurrency counterexample). -/
def exCodeUnused : CodeRow :=
  { id := 1, code := "123456",
    dropbox_link := some "https://www.dropbox.com/s/f?dl=0",
    used_by_email := none, used_at := none }

/-- A concrete account holding the stored, unexpired login code
`"123456"` (expiry 1000 ms). -/
def exAccount : Account :=
  { id := 1, email := "u@x.com", password := some "hash",
    email_verified := true, admin_approved := true,
    reset_token := none, token_expiry := none,
    login_code := some "123456", login_code_expiry := some 1000 }

/-! ### Theorems -/

/-- C8: `validatePassword` accepts exactly the strings of length at least
8 containing an uppercase letter, a lowercase letter, a digit and a
symbol of the fixed punctuation set; on rejection the first failing
rule's message is returned, in the order length, uppercase, lowercase,
digit, symbol; `"short"` fails with the length reason,
`"alllowercase1!"` with the uppercase reason, and `"Aa1!aaaa"` is
valid. -/
theorem validatePassword_policy :
    (∀ s : String, (validatePassword s).valid = true ↔
       (8 ≤ s.length ∧ s.data.any isUpperAZ = true ∧
        s.data.any isLowerAZ = true ∧ s.data.any isDigit09 = true ∧
        s.data.any isPwSpecial = true)) ∧
    (∀ s : String, s.length < 8 →
       validatePassword s = ⟨false, some msgPwLen⟩) ∧
    (∀ s : String, 8 ≤ s.length → s.data.any isUpperAZ = false →
       validatePassword s = ⟨false, some msgPwUpper⟩) ∧
    (∀ s : String, 8 ≤ s.length → s.data.any isUpperAZ = true →
       s.data.any isLowerAZ = false →
       validatePassword s = ⟨false, some msgPwLower⟩) ∧
    (∀ s : String, 8 ≤ s.length → s.data.any isUpperAZ = true →
       s.data.any isLowerAZ = true → s.data.any isDigit09 = false →
       validatePassword s = ⟨false, some msgPwDigit⟩) ∧
    (∀ s : String, 8 ≤ s.length → s.data.any isUpperAZ = true →
       s.data.any isLowerAZ = true → s.data.any isDigit09 = true →
       s.data.any isPwSpecial = false →
       validatePassword s = ⟨false, some msgPwSpecial⟩) ∧
    validatePassword "short" = ⟨false, some msgPwLen⟩ ∧
    validatePassword "alllowercase1!" = ⟨false, some msgPwUpper⟩ ∧
    validatePassword "Aa1!aaaa" = ⟨true, none⟩ := by
  refine ⟨?_, ?_, ?_, ?_, ?_, ?_, by decide, by decide, by decide⟩
  · intro s
    unfold validatePassword
    split_ifs with h1 h2 h3 h4 h5
    · constructor
      · intro hv; simp at hv
      · rintro ⟨hlen, -, -, -, -⟩; omega
    · rw [Bool.not_eq_true'] at h2
      constructor
      · intro hv; simp at hv
      · rintro ⟨-, hup, -, -, -⟩; rw [hup] at h2; cases h2
    · rw [Bool.not_eq_true'] at h3
      constructor
      · intro hv; simp at hv
      · rintro ⟨-, -, hlo, -, -⟩; rw [hlo] at h3; cases h3
    · rw [Bool.not_eq_true'] at h4
      constructor
      · intro hv; simp at hv
      · rintro ⟨-, -, -, hdi, -⟩; rw [hdi] at h4; cases h4
    · rw [Bool.not_eq_true'] at h5
      constructor
      · intro hv; simp at hv
      · rintro ⟨-, -, -, -, hsp⟩; rw [hsp] at h5; cases h5
    · simp only [Bool.not_eq_true, Bool.not_eq_false, Bool.not_eq_true'] at h2 h3 h4 h5
      exact ⟨fun _ => ⟨by omega, h2, h3, h4, h5⟩, fun _ => rfl⟩
  · intro s h
    unfold validatePassword
    simp [h]
  · intro s h hu
    unfold validatePassword
    simp [Nat.not_lt_of_le h, hu]
  · intro s h hu hl
    unfold validatePassword
    simp [Nat.not_lt_of_le h, hu, hl]
  · intro s h hu hl hd
    unfold validatePassword
    simp [Nat.not_lt_of_le h, hu, hl, hd]
  · intro s h hu hl hd hs
    unfold validatePassword
    simp [Nat.not_lt_of_le h, hu, hl, hd, hs]

/-- C8 witness: the theorem applied at `"alllowercase1!"`. -/
theorem validatePassword_policy_witness :
    validatePassword "alllowercase1!" = ⟨false, some msgPwUpper⟩ :=
  validatePassword_policy.2.2.1 "alllowercase1!" (by decide) (by decide)

/-- C3: the redemption race.  With the single unused code `"123456"`,
the schedule in which both requests read before either writes makes
BOTH redemptions return success, and the second write silently
overwrites the first user's claim — because `markCodeUsed` is an
unconditional update by `id` (shown by the last conjunct: it happily
overwrites an already-used row), not a conditional
mark-used-where-unused. -/
theorem twoConcurrentRedemptions_both_succeed :
    ((twoConcurrentRedemptions [exCodeUnused]
        "alice@example.com" "bob@example.com" "123456" 50).1.success = true) ∧
    ((twoConcurrentRedemptions [exCodeUnused]
        "alice@example.com" "bob@example.com" "123456" 50).2.1.success = true) ∧
    ((twoConcurrentRedemptions [exCodeUnused]
        "alice@example.com" "bob@example.com" "123456" 50).2.2 =
      [{ exCodeUnused with used_by_email := some "bob@example.com",
                           used_at := some 50 }]) ∧
    (markCodeUsed [{ exCodeUnused with
                      used_by_email := some "alice@example.com",
                      used_at := some 10 }] 1 "bob@example.com" 50 =
      [{ exCodeUnused with used_by_email := some "bob@example.com",
                           used_at := some 50 }]) := by
  refine ⟨by decide, by decide, by decide, by decide⟩

/-- C4: order status is not monotone.  `handleRequestPayment` called
with the explicit id of an already-approved order filters only by
`user_email` and `id` (no status condition) and unconditionally sets
the status back to `paid` — a backward `approved → paid` transition;
and `handleSendReadyEmail` completes an order that is still `pending`
without ever checking its status. -/
theorem order_status_not_monotone :
    exOrderApproved.status = "approved" ∧
    ((handleRequestPayment [exOrderApproved] "user@example.com"
        (some "o1") 77 true).2 =
      [{ exOrderApproved with status := "paid",
                              payment_requested_at := some 77 }]) ∧
    ((handleRequestPayment [exOrderApproved] "user@example.com"
        (some "o1") 77 true).1.success = true) ∧
    exOrderPending.status = "pending" ∧
    ((handleSendReadyEmail [exOrderPending] "o2" 88 none).2 =
      [{ exOrderPending with status := "completed",
                             completed_at := some 88 }]) := by
  refine ⟨rfl, by decide, by decide, rfl, by decide⟩

/-- C7: the forgot-password operation answers a registered and an
unregistered e-mail with the same 200/success/message response (when
the reset e-mail send succeeds), so the response does not reveal
whether the account exists. -/
theorem forgot_password_nondisclosure
    (accounts : List Account) (a : Account) (e1 e2 tok1 tok2 : String)
    (now1 now2 : Nat)
    (h1 : e1 ≠ "") (h2 : e2 ≠ "")
    (hreg : findAccountByEmail accounts (jsTrim (jsToLower e1)) = some a)
    (hunreg : findAccountByEmail accounts (jsTrim (jsToLower e2)) = none) :
    (handleForgot accounts e1 tok1 now1 true).1.status = 200 ∧
    (handleForgot accounts e1 tok1 now1 true).1.success = true ∧
    (handleForgot accounts e2 tok2 now2 true).1.status = 200 ∧
    (handleForgot accounts e2 tok2 now2 true).1.success = true ∧
    (handleForgot accounts e1 tok1 now1 true).1.message =
      (handleForgot accounts e2 tok2 now2 true).1.message := by
  unfold handleForgot
  simp [h1, h2, hreg, hunreg]

/-- C7 witness: a one-account store, queried with its own e-mail and
with an unknown one. -/
theorem forgot_password_nondisclosure_witness :
    (handleForgot [{ id := 1, email := "u@x.com", password := some "h",
                     email_verified := true, admin_approved := true,
                     reset_token := none, token_expiry := none,
                     login_code := none, login_code_expiry := none }]
       "u@x.com" "tok" 5 true).1.status = 200 ∧
    (handleForgot [{ id := 1, email := "u@x.com", password := some "h",
                     email_verified := true, admin_approved := true,
                     reset_token := none, token_expiry := none,
                     login_code := none, login_code_expiry := none }]
       "v@x.com" "tok" 5 true).1.status = 200 :=
  have h := forgot_password_nondisclosure
    [{ id := 1, email := "u@x.com", password := some "h",
       email_verified := true, admin_approved := true,
       reset_token := none, token_expiry := none,
       login_code := none, login_code_expiry := none }]
    { id := 1, email := "u@x.com", password := some "h",
      email_verified := true, admin_approved := true,
      reset_token := none, token_expiry := none,
      login_code := none, login_code_expiry := none }
    "u@x.com" "v@x.com" "tok" "tok" 5 5
    (by decide) (by decide) (by decide) (by decide)
  ⟨h.1, h.2.2.1⟩

/-- C9: the GET approve handler applied to an order whose status is
already `approved` or `completed` changes neither the codes table nor
the orders table (in particular mints no code) and still renders the
success page titled "Already Approved". -/
theorem approve_idempotent_on_approved
    (codes : List CodeRow) (orders : List OrderRow) (order : OrderRow)
    (qOrderId newCode sharedLink : String) (newCodeId now : Nat)
    (hq : qOrderId ≠ "")
    (hfind : orders.filter (fun o => o.id == qOrderId) = [order])
    (hst : order.status = "approved" ∨ order.status = "completed") :
    handleApproveGet codes orders true qOrderId
        (some ⟨qOrderId, "approve"⟩) newCode newCodeId sharedLink now =
      (⟨"Already Approved", true⟩, codes, orders) := by
  unfold handleApproveGet
  simp [hq, hfind, hst]

/-- C9 witness: re-approving the concrete already-approved order. -/
theorem approve_idempotent_on_approved_witness :
    handleApproveGet [exCodeUnused] [exOrderApproved] true "o1"
        (some ⟨"o1", "approve"⟩) "999999" 7 "link" 123 =
      (⟨"Already Approved", true⟩, [exCodeUnused], [exOrderApproved]) :=
  approve_idempotent_on_approved [exCodeUnused] [exOrderApproved]
    exOrderApproved "o1" "999999" "link" 7 123
    (by decide) (by decide) (Or.inl rfl)

/-- Primary-key injectivity: when the id column of the codes table is
duplicate-free, rows are determined by their ids. -/
theorem codeIds_injective {codes : List CodeRow}
    (h : (codes.map CodeRow.id).Nodup) :
    ∀ a ∈ codes, ∀ b ∈ codes, a.id = b.id → a = b :=
  fun _ ha _ hb hab => List.inj_on_of_nodup_map h ha hb hab

/-- Unfolding of a successful `findCodeByValidation` lookup. -/
theorem findCode_eq_some {codes : List CodeRow} {c : String}
    {entry : CodeEntry} (h : findCodeByValidation codes c = some entry) :
    ∃ r, codes.filter (fun r => r.code == jsTrim c) = [r] ∧
      entry = toCodeEntry r := by
  unfold findCodeByValidation at h
  split at h
  next r heq => injection h with h2; exact ⟨r, heq, h2.symm⟩
  next => cases h

/-- A single-row filter result is a member satisfying the predicate. -/
theorem mem_of_filter_singleton {α : Type} {p : α → Bool} {l : List α}
    {x : α} (h : l.filter p = [x]) : x ∈ l ∧ p x = true := by
  have hx : x ∈ l.filter p := by rw [h]; exact List.mem_singleton_self x
  exact ⟨(List.mem_filter.mp hx).1, (List.mem_filter.mp hx).2⟩

/-- The redemption handler either leaves the codes table unchanged or
marks exactly the unused row found by the lookup. -/
theorem handleRequest_state (codes : List CodeRow) (u c : String)
    (now : Nat) (ok : Bool) :
    (handleRequest codes u c now ok).2 = codes ∨
    ∃ r0, codes.filter (fun r => r.code == jsTrim c) = [r0] ∧
      r0.used_by_email = none ∧
      (handleRequest codes u c now ok).2 = markCodeUsed codes r0.id u now := by
  unfold handleRequest
  by_cases htrim : jsTrim c = ""
  · simp [htrim]
  · rw [if_neg htrim]
    cases hfind : findCodeByValidation codes c with
    | none => simp
    | some entry =>
      obtain ⟨r0, hf0, hent⟩ := findCode_eq_some hfind
      by_cases hu : entry.isUsed
      · simp [hu]
      · have hnone : r0.used_by_email = none := by
          cases hval : r0.used_by_email with
          | none => rfl
          | some v => rw [hent] at hu; simp [toCodeEntry, hval] at hu
        by_cases hl : entry.dropboxLink = ""
        · simp [hu, hl]
        · right
          refine ⟨r0, hf0, hnone, ?_⟩
          rw [hent] at hl
          simp only [toCodeEntry] at hl
          rw [hent]
          cases ok <;> simp [hnone, hl, toCodeEntry]

/-- C1: the used state of a verification code is terminal.  Once a row's
`used_by_email` is set, (i) any redemption submitting that row's code is
answered with "already used" and the table is untouched, and (ii) no
redemption request whatsoever — any submitted code, requester and
moment — changes that row's `used_by_email`/`used_at`: the row stays in
the table verbatim and remains the unique row with its id. -/
theorem code_one_time_use
    (codes : List CodeRow) (row : CodeRow) (e : String)
    (hids : (codes.map CodeRow.id).Nodup)
    (hrow : row ∈ codes)
    (hused : row.used_by_email = some e)
    (hne : row.code ≠ "") :
    (∀ c u now ok, codes.filter (fun r => r.code == jsTrim c) = [row] →
       handleRequest codes u c now ok =
         (⟨400, false, msgAlreadyUsed, none⟩, codes)) ∧
    (∀ c u now ok,
       row ∈ (handleRequest codes u c now ok).2 ∧
       ∀ r' ∈ (handleRequest codes u c now ok).2, r'.id = row.id → r' = row) := by
  constructor
  · intro c u now ok hf
    obtain ⟨-, hpred⟩ := mem_of_filter_singleton hf
    have hcodeeq : row.code = jsTrim c := by simpa using hpred
    have htrim : jsTrim c ≠ "" := by rw [← hcodeeq]; exact hne
    unfold handleRequest
    rw [if_neg htrim]
    unfold findCodeByValidation
    rw [hf]
    simp [toCodeEntry, hused]
  · intro c u now ok
    rcases handleRequest_state codes u c now ok with hst | ⟨r0, hf0, hnone, hst⟩
    · rw [hst]
      exact ⟨hrow, fun r' hr' hid => codeIds_injective hids r' hr' row hrow hid⟩
    · obtain ⟨hr0mem, -⟩ := mem_of_filter_singleton hf0
      have hiddiff : row.id ≠ r0.id := by
        intro hideq
        have : row = r0 := codeIds_injective hids row hrow r0 hr0mem hideq
        rw [this, hnone] at hused
        cases hused
      rw [hst]
      constructor
      · unfold markCodeUsed
        refine List.mem_map.mpr ⟨row, hrow, ?_⟩
        rw [if_neg (by simpa using hiddiff)]
      · intro r' hr' hid
        unfold markCodeUsed at hr'
        obtain ⟨x, hx, hgx⟩ := List.mem_map.mp hr'
        by_cases hxid : x.id = r0.id
        · rw [if_pos (by simpa using hxid)] at hgx
          rw [← hgx] at hid
          simp at hid
          exact absurd (hid ▸ hxid) hiddiff
        · rw [if_neg (by simpa using hxid)] at hgx
          rw [← hgx] at hid ⊢
          exact codeIds_injective hids x hx row hrow hid

/-- C1 witness: a one-row table whose code was already redeemed by
`alice`; a new attempt by `bob` fails with "already used" and the row
survives unchanged. -/
theorem code_one_time_use_witness :
    (handleRequest [{ exCodeUnused with
        used_by_email := some "alice@example.com", used_at := some 10 }]
      "bob@example.com" "123456" 50 true =
      (⟨400, false, msgAlreadyUsed, none⟩,
       [{ exCodeUnused with
           used_by_email := some "alice@example.com", used_at := some 10 }])) ∧
    ({ exCodeUnused with
        used_by_email := some "alice@example.com", used_at := some 10 } ∈
      (handleRequest [{ exCodeUnused with
          used_by_email := some "alice@example.com", used_at := some 10 }]
        "bob@example.com" "123456" 50 true).2) :=
  have h := code_one_time_use
    [{ exCodeUnused with
        used_by_email := some "alice@example.com", used_at := some 10 }]
    { exCodeUnused with
        used_by_email := some "alice@example.com", used_at := some 10 }
    "alice@example.com" (by decide) (by decide) rfl (by decide)
  ⟨h.1 "123456" "bob@example.com" 50 true (by decide),
   (h.2 "123456" "bob@example.com" 50 true).1⟩

/-- C2: the redemption operation looks the submitted code up by exact
match on its trimmed value and (i) fails with "not valid" when no row
matches, (ii) fails with "already used" when `used_by_email` is set,
(iii) fails with "not configured" when the row has no download link,
and (iv) otherwise marks the row used (`used_by_email`/`used_at`) and
returns the direct-download-rewritten link with success. -/
theorem redemption_case_analysis :
    (∀ (codes : List CodeRow) (u c : String) (now : Nat) (ok : Bool),
       jsTrim c ≠ "" →
       codes.filter (fun r => r.code == jsTrim c) = [] →
       handleRequest codes u c now ok =
         (⟨400, false, msgNotValid, none⟩, codes)) ∧
    (∀ (codes : List CodeRow) (row : CodeRow) (u c : String) (now : Nat)
       (ok : Bool),
       codes.filter (fun r => r.code == jsTrim c) = [row] → row.code ≠ "" →
       row.used_by_email.isSome = true →
       handleRequest codes u c now ok =
         (⟨400, false, msgAlreadyUsed, none⟩, codes)) ∧
    (∀ (codes : List CodeRow) (row : CodeRow) (u c : String) (now : Nat)
       (ok : Bool),
       codes.filter (fun r => r.code == jsTrim c) = [row] → row.code ≠ "" →
       row.used_by_email = none → row.dropbox_link.getD "" = "" →
       handleRequest codes u c now ok =
         (⟨400, false, msgNotConfigured, none⟩, codes)) ∧
    (∀ (codes : List CodeRow) (row : CodeRow) (u c : String) (now : Nat),
       codes.filter (fun r => r.code == jsTrim c) = [row] → row.code ≠ "" →
       row.used_by_email = none → row.dropbox_link.getD "" ≠ "" →
       handleRequest codes u c now true =
         (⟨200, true, msgRedeemSuccess,
           some (getDirectDownloadLink (row.dropbox_link.getD ""))⟩,
          markCodeUsed codes row.id u now) ∧
       { row with used_by_email := some u, used_at := some now } ∈
         (handleRequest codes u c now true).2) := by
  refine ⟨?_, ?_, ?_, ?_⟩
  · intro codes u c now ok htrim hf
    unfold handleRequest
    rw [if_neg htrim]
    unfold findCodeByValidation
    rw [hf]
  · intro codes row u c now ok hf hne hu
    obtain ⟨-, hpred⟩ := mem_of_filter_singleton hf
    have hcodeeq : row.code = jsTrim c := by simpa using hpred
    have htrim : jsTrim c ≠ "" := by rw [← hcodeeq]; exact hne
    unfold handleRequest
    rw [if_neg htrim]
    unfold findCodeByValidation
    rw [hf]
    simp [toCodeEntry, hu]
  · intro codes row u c now ok hf hne hu hl
    obtain ⟨-, hpred⟩ := mem_of_filter_singleton hf
    have hcodeeq : row.code = jsTrim c := by simpa using hpred
    have htrim : jsTrim c ≠ "" := by rw [← hcodeeq]; exact hne
    unfold handleRequest
    rw [if_neg htrim]
    unfold findCodeByValidation
    rw [hf]
    simp [toCodeEntry, hu, hl]
  · intro codes row u c now hf hne hu hl
    obtain ⟨hmem, hpred⟩ := mem_of_filter_singleton hf
    have hcodeeq : row.code = jsTrim c := by simpa using hpred
    have htrim : jsTrim c ≠ "" := by rw [← hcodeeq]; exact hne
    have hres : handleRequest codes u c now true =
        (⟨200, true, msgRedeemSuccess,
          some (getDirectDownloadLink (row.dropbox_link.getD ""))⟩,
         markCodeUsed codes row.id u now) := by
      unfold handleRequest
      rw [if_neg htrim]
      unfold findCodeByValidation
      rw [hf]
      simp [toCodeEntry, hu, hl]
    refine ⟨hres, ?_⟩
    rw [hres]
    unfold markCodeUsed
    exact List.mem_map.mpr ⟨row, hmem, by simp⟩

/-- C2 witness: the success case on a concrete one-row table — the code
is marked used by the requester and the `?dl=0` link is rewritten to
`?dl=1`. -/
theorem redemption_case_analysis_witness :
    handleRequest [exCodeUnused] "alice@example.com" "123456" 50 true =
      (⟨200, true, msgRedeemSuccess,
        some "https://www.dropbox.com/s/f?dl=1"⟩,
       [{ exCodeUnused with used_by_email := some "alice@example.com",
                            used_at := some 50 }]) := by
  have h := (redemption_case_analysis.2.2.2 [exCodeUnused] exCodeUnused
    "alice@example.com" "123456" 50 (by decide) (by decide) rfl
    (by decide)).1
  rw [h]
  decide

/-- Unfolding of a successful `findAccountByEmail` lookup. -/
theorem findAccount_eq_some {accounts : List Account} {e : String}
    {a : Account} (h : findAccountByEmail accounts e = some a) :
    a ∈ accounts ∧
      accounts.filter (fun x => x.email == jsToLower e) = [a] := by
  unfold findAccountByEmail at h
  split at h
  next b heq =>
    injection h with h2
    subst h2
    exact ⟨(mem_of_filter_singleton heq).1, heq⟩
  next => cases h

/-- C5: login gating.  With a correct password, (i) a non-admin account
with `email_verified = false` is rejected 403 with
`needsVerification := true` (state untouched), (ii) a non-admin account
with `email_verified = true` but `admin_approved = false` is rejected
403 with `pendingApproval := true` (state untouched), and (iii) an
admin-listed e-mail proceeds to the second factor regardless of both
flags: status 200, `requiresCode := true`, and no session token. -/
theorem login_gating
    (accounts : List Account) (admins : List String)
    (pwMatches : String → Bool) (email password genCode : String)
    (a : Account) (h : String) (now : Nat)
    (hemail : email ≠ "") (hpw : password ≠ "")
    (hfind : findAccountByEmail accounts (jsTrim (jsToLower email)) = some a)
    (hhash : a.password = some h) (hcmp : pwMatches h = true) :
    (isAdmin admins (jsTrim (jsToLower email)) = false →
       a.email_verified = false →
       handleLogin accounts admins pwMatches email password genCode now true =
         ({ status := 403, success := false, message := msgNeedsVerification,
            needsVerification := true }, accounts)) ∧
    (isAdmin admins (jsTrim (jsToLower email)) = false →
       a.email_verified = true → a.admin_approved = false →
       handleLogin accounts admins pwMatches email password genCode now true =
         ({ status := 403, success := false, message := msgPendingApproval,
            pendingApproval := true }, accounts)) ∧
    (isAdmin admins (jsTrim (jsToLower email)) = true →
       (handleLogin accounts admins pwMatches email password genCode
           now true).1.status = 200 ∧
       (handleLogin accounts admins pwMatches email password genCode
           now true).1.requiresCode = true ∧
       (handleLogin accounts admins pwMatches email password genCode
           now true).1.token = none) := by
  have h0 : ¬(email = "" ∨ password = "") := not_or.mpr ⟨hemail, hpw⟩
  refine ⟨?_, ?_, ?_⟩
  · intro hadm hver
    unfold handleLogin
    rw [if_neg h0]
    simp [hfind, hhash, hcmp, hadm, hver]
  · intro hadm hver happ
    unfold handleLogin
    rw [if_neg h0]
    simp [hfind, hhash, hcmp, hadm, hver, happ]
  · intro hadm
    unfold handleLogin
    rw [if_neg h0]
    simp [hfind, hhash, hcmp, hadm]

/-- C5 witness: an unverified non-admin account is rejected with
`needsVerification`, applying the theorem at a concrete store. -/
theorem login_gating_witness :
    handleLogin
      [{ id := 1, email := "u@x.com", password := some "hash",
         email_verified := false, admin_approved := false,
         reset_token := none, token_expiry := none,
         login_code := none, login_code_expiry := none }]
      [] (fun s => s == "hash") "u@x.com" "pw" "111111" 5 true =
      ({ status := 403, success := false, message := msgNeedsVerification,
         needsVerification := true },
       [{ id := 1, email := "u@x.com", password := some "hash",
          email_verified := false, admin_approved := false,
          reset_token := none, token_expiry := none,
          login_code := none, login_code_expiry := none }]) :=
  (login_gating
    [{ id := 1, email := "u@x.com", password := some "hash",
       email_verified := false, admin_approved := false,
       reset_token := none, token_expiry := none,
       login_code := none, login_code_expiry := none }]
    [] (fun s => s == "hash") "u@x.com" "pw" "111111"
    { id := 1, email := "u@x.com", password := some "hash",
      email_verified := false, admin_approved := false,
      reset_token := none, token_expiry := none,
      login_code := none, login_code_expiry := none }
    "hash" 5 (by decide) (by decide) (by decide) rfl (by decide)).1
    (by decide) rfl

/-- Clearing the login code commutes with filtering on the (unchanged)
e-mail column. -/
theorem filter_email_clearLoginCode (accounts : List Account) (em : String) :
    (clearLoginCode accounts em).filter (fun x => x.email == jsToLower em) =
      (accounts.filter (fun x => x.email == jsToLower em)).map
        (fun a => { a with login_code := none, login_code_expiry := none }) := by
  unfold clearLoginCode
  induction accounts with
  | nil => rfl
  | cons b rest ih =>
    by_cases hb : (b.email == jsToLower em) = true
    · simp only [List.map_cons, List.filter_cons, hb, if_pos hb, ih]
      simp [hb]
    · rw [Bool.not_eq_true] at hb
      simp only [List.map_cons, List.filter_cons, hb, if_neg, ih]
      simp [hb]

/-- C6: the login second factor round trip.  (i) A successful password
login answers `requiresCode := true` with no session token and stores
the generated code on the account with a 10-minute (600000 ms) expiry;
(ii) the generated code is a 6-digit decimal numeral; (iii) presenting
the matching unexpired code mints the session token and clears the
stored code, after which the same code fails with "no verification
code found"; (iv) presenting any code after expiry clears the stored
code and fails. -/
theorem login_second_factor_roundtrip :
    (∀ (accounts : List Account) (admins : List String)
       (pwMatches : String → Bool) (email password : String) (r now : Nat)
       (a : Account) (h : String),
       email ≠ "" → password ≠ "" →
       findAccountByEmail accounts (jsTrim (jsToLower email)) = some a →
       a.password = some h → pwMatches h = true →
       a.email_verified = true → a.admin_approved = true →
       (handleLogin accounts admins pwMatches email password
           (generateLoginCode r) now true).1.requiresCode = true ∧
       (handleLogin accounts admins pwMatches email password
           (generateLoginCode r) now true).1.token = none ∧
       (handleLogin accounts admins pwMatches email password
           (generateLoginCode r) now true).2 =
         setLoginCode accounts (jsTrim (jsToLower email))
           (generateLoginCode r) now ∧
       { a with login_code := some (generateLoginCode r),
                login_code_expiry := some (now + 600000) } ∈
         (handleLogin accounts admins pwMatches email password
             (generateLoginCode r) now true).2) ∧
    (∀ r : Nat, ∃ n : Nat, 100000 ≤ n ∧ n ≤ 999999 ∧
       generateLoginCode r = Nat.repr n ∧ (Nat.repr n).length ≤ 6) ∧
    (∀ (accounts : List Account) (admins : List String) (email g : String)
       (now now2 : Nat) (a : Account),
       email ≠ "" → g ≠ "" →
       accounts.filter
           (fun x => x.email == jsToLower (jsTrim (jsToLower email))) = [a] →
       a.login_code = some g → now ≤ a.login_code_expiry.getD 0 →
       handleVerifyLoginCode accounts admins email g now =
         ({ status := 200, success := true, message := msgLoginSuccess,
            token := some (generateToken (jsTrim (jsToLower email))
              (isAdmin admins (jsTrim (jsToLower email)))),
            isAdmin := isAdmin admins (jsTrim (jsToLower email)) },
          clearLoginCode accounts (jsTrim (jsToLower email))) ∧
       handleVerifyLoginCode
           (clearLoginCode accounts (jsTrim (jsToLower email)))
           admins email g now2 =
         ({ status := 401, success := false, message := msgNoLoginCode },
          clearLoginCode accounts (jsTrim (jsToLower email)))) ∧
    (∀ (accounts : List Account) (admins : List String) (email c g : String)
       (now : Nat) (a : Account),
       email ≠ "" → c ≠ "" →
       accounts.filter
           (fun x => x.email == jsToLower (jsTrim (jsToLower email))) = [a] →
       a.login_code = some g → a.login_code_expiry.getD 0 < now →
       handleVerifyLoginCode accounts admins email c now =
         ({ status := 401, success := false, message := msgLoginCodeExpired },
          clearLoginCode accounts (jsTrim (jsToLower email)))) := by
  refine ⟨?_, ?_, ?_, ?_⟩
  · intro accounts admins pwMatches email password r now a h hemail hpw
      hfind hhash hcmp hver happ
    have h0 : ¬(email = "" ∨ password = "") := not_or.mpr ⟨hemail, hpw⟩
    have hstate : handleLogin accounts admins pwMatches email password
        (generateLoginCode r) now true =
        ({ status := 200, success := true, message := msgCodeSent,
           requiresCode := true,
           isAdmin := isAdmin admins (jsTrim (jsToLower email)) },
         setLoginCode accounts (jsTrim (jsToLower email))
           (generateLoginCode r) now) := by
      unfold handleLogin
      rw [if_neg h0]
      simp [hfind, hhash, hcmp, hver, happ]
    refine ⟨by rw [hstate], by rw [hstate], by rw [hstate], ?_⟩
    rw [hstate]
    obtain ⟨amem, hfilter⟩ := findAccount_eq_some hfind
    obtain ⟨-, hpred⟩ := mem_of_filter_singleton hfilter
    unfold setLoginCode
    exact List.mem_map.mpr ⟨a, amem, by rw [if_pos hpred]; rfl⟩
  · intro r
    have h1 : r % 900000 < 900000 := Nat.mod_lt _ (by norm_num)
    refine ⟨100000 + r % 900000, by omega, by omega, rfl, ?_⟩
    have h2 : 100000 + r % 900000 < 10 ^ 6 := by norm_num; omega
    exact Nat.repr_length _ 6 (by norm_num) h2
  · intro accounts admins email g now now2 a hemail hg hfind hcode hexp
    have h0 : ¬(email = "" ∨ g = "") := not_or.mpr ⟨hemail, hg⟩
    have hverify : verifyLoginCode accounts (jsTrim (jsToLower email)) g now =
        (clearLoginCode accounts (jsTrim (jsToLower email)), ⟨true, ""⟩) := by
      simp only [verifyLoginCode, hfind, hcode]
      rw [if_neg (not_lt.mpr hexp)]
      simp
    constructor
    · unfold handleVerifyLoginCode
      rw [if_neg h0]
      simp [hverify]
    · have hfilter2 := filter_email_clearLoginCode accounts
        (jsTrim (jsToLower email))
      have hverify2 : verifyLoginCode
          (clearLoginCode accounts (jsTrim (jsToLower email)))
          (jsTrim (jsToLower email)) g now2 =
          (clearLoginCode accounts (jsTrim (jsToLower email)),
           ⟨false, msgNoLoginCode⟩) := by
        simp only [verifyLoginCode, hfilter2, hfind, List.map_cons, List.map_nil]
      unfold handleVerifyLoginCode
      rw [if_neg h0]
      simp [hverify2]
  · intro accounts admins email c g now a hemail hc hfind hcode hexp
    have h0 : ¬(email = "" ∨ c = "") := not_or.mpr ⟨hemail, hc⟩
    have hverify : verifyLoginCode accounts (jsTrim (jsToLower email)) c now =
        (clearLoginCode accounts (jsTrim (jsToLower email)),
         ⟨false, msgLoginCodeExpired⟩) := by
      simp only [verifyLoginCode, hfind, hcode]
      rw [if_pos hexp]
    unfold handleVerifyLoginCode
    rw [if_neg h0]
    simp [hverify]

/-- C6 witness: the round trip on a concrete store — the matching code
succeeds at time 500, and the very same code fails after the success
has cleared it. -/
theorem login_second_factor_roundtrip_witness :
    (handleVerifyLoginCode [exAccount] [] "u@x.com" "123456" 500).1.success
      = true ∧
    (handleVerifyLoginCode
        (clearLoginCode [exAccount] (jsTrim (jsToLower "u@x.com")))
        [] "u@x.com" "123456" 600).1.success = false := by
  have h := login_second_factor_roundtrip.2.2.1
    [exAccount] [] "u@x.com" "123456" 500 600 exAccount
    (by decide) (by decide) (by decide) rfl (by decide)
  exact ⟨by rw [h.1], by rw [h.2]⟩

/-- A wrong but timely guess at the login code leaves the account store
untouched. -/
theorem verify_wrong_guess {accounts : List Account} {email g w : String}
    {now : Nat} {a : Account}
    (hfind : accounts.filter (fun x => x.email == jsToLower email) = [a])
    (hcode : a.login_code = some g)
    (hexp : now ≤ a.login_code_expiry.getD 0)
    (hw : w ≠ g) :
    verifyLoginCode accounts email w now =
      (accounts, ⟨false, msgLoginCodeInvalid⟩) := by
  simp only [verifyLoginCode, hfind, hcode]
  rw [if_neg (not_lt.mpr hexp), if_pos (Ne.symm hw)]

/-- C10: a non-matching guess at a stored, unexpired login code returns
failure and leaves `login_code`/`login_code_expiry` unchanged; any
number of wrong guesses before expiry leaves the store unchanged, so
the correct code still succeeds afterwards. -/
theorem wrong_login_code_not_consumed
    (accounts : List Account) (admins : List String) (a : Account)
    (email g w : String) (now : Nat)
    (hnorm : jsTrim (jsToLower email) = email)
    (hemail : email ≠ "") (hwne : w ≠ "")
    (hfind : accounts.filter (fun x => x.email == jsToLower email) = [a])
    (hcode : a.login_code = some g)
    (hexp : now ≤ a.login_code_expiry.getD 0)
    (hw : w ≠ g) :
    verifyLoginCode accounts email w now =
      (accounts, ⟨false, msgLoginCodeInvalid⟩) ∧
    handleVerifyLoginCode accounts admins email w now =
      ({ status := 401, success := false, message := msgLoginCodeInvalid },
       accounts) ∧
    (∀ ws : List (String × Nat),
       (∀ p ∈ ws, p.1 ≠ g ∧ p.2 ≤ a.login_code_expiry.getD 0) →
       ws.foldl (fun st p => (verifyLoginCode st email p.1 p.2).1) accounts
         = accounts) ∧
    (verifyLoginCode accounts email g now).2.success = true := by
  have hsingle := verify_wrong_guess hfind hcode hexp hw
  refine ⟨hsingle, ?_, ?_, ?_⟩
  · have h0 : ¬(email = "" ∨ w = "") := not_or.mpr ⟨hemail, hwne⟩
    unfold handleVerifyLoginCode
    rw [if_neg h0, hnorm]
    simp [hsingle]
  · intro ws hws
    induction ws with
    | nil => rfl
    | cons p rest ih =>
      have hp := hws p (List.mem_cons_self p rest)
      have hstep := verify_wrong_guess hfind hcode hp.2 hp.1
      simp only [List.foldl_cons, hstep]
      exact ih (fun q hq => hws q (List.mem_cons_of_mem p hq))
  · simp only [verifyLoginCode, hfind, hcode]
    rw [if_neg (not_lt.mpr hexp)]
    simp

/-- C10 witness: on the concrete account, the wrong guess `"654321"`
fails and leaves the store unchanged, and ten repeated wrong guesses
later the correct `"123456"` still succeeds. -/
theorem wrong_login_code_not_consumed_witness :
    verifyLoginCode [exAccount] "u@x.com" "654321" 500 =
      ([exAccount], ⟨false, msgLoginCodeInvalid⟩) ∧
    (verifyLoginCode [exAccount] "u@x.com" "123456" 500).2.success = true :=
  have h := wrong_login_code_not_consumed [exAccount] [] exAccount
    "u@x.com" "123456" "654321" 500 (by decide) (by decide) (by decide)
    (by decide) rfl (by decide) (by decide)
  ⟨h.1, h.2.2.2⟩
